import Mathlib

/-!
Shallow embedding of the valuation/projection engine of the stock-analysis
dashboard (`src/utils/valuation.ts`, here `src/unnamed/part_008`) together with
the default-assumption seeding of the `PricePredictor` component
(`src/unnamed/part_003`).  JavaScript numbers are modelled as exact rationals
(the engine uses only `+`, `*`, `/`, `max` and integer powers); the CAGR
helper, which takes a real `(1/years)`-th power, is modelled over the reals.
JavaScript `x || d` (falsy fallback) and `x ?? d` (nullish fallback) on
`number | null` arguments are modelled explicitly.
-/

namespace Stock

/-- JavaScript `x || d` on a `number | null` value: `null` (and `0`, which is
falsy) fall back to the default `d`. -/
def jsOr (x : Option ℚ) (d : ℚ) : ℚ :=
  match x with
  | none => d
  | some v => if v = 0 then d else v

/-- The `MultipleType` union of `valuation.ts`:
`'pe' | 'evEbit' | 'evEbitda' | 'evRevenue' | 'evFcf'`. -/
inductive MultipleType where
  | pe
  | evEbit
  | evEbitda
  | evRevenue
  | evFcf
deriving DecidableEq, Repr

/-- The `FinancialMetrics` interface of `types/stock.ts`: every field is
`number | null`. -/
structure FinancialMetrics where
  peRatio : Option ℚ
  forwardPE : Option ℚ
  pegRatio : Option ℚ
  priceToSales : Option ℚ
  priceToBook : Option ℚ
  evToEbitda : Option ℚ
  evToEbit : Option ℚ
  evToRevenue : Option ℚ
  grossMargin : Option ℚ
  operatingMargin : Option ℚ
  netMargin : Option ℚ
  roe : Option ℚ
  roa : Option ℚ
  revenue : Option ℚ
  netIncome : Option ℚ
  ebitda : Option ℚ
  ebit : Option ℚ
  eps : Option ℚ
  freeCashFlow : Option ℚ
  totalCash : Option ℚ
  totalDebt : Option ℚ
  netDebt : Option ℚ
  sharesOutstanding : Option ℚ
  enterpriseValue : Option ℚ
deriving DecidableEq, Repr

/-- A bear/base/bull triple, as used inside `ProjectionAssumptions`. -/
structure ScenarioValues where
  bear : ℚ
  base : ℚ
  bull : ℚ
deriving DecidableEq, Repr

/-- The `ProjectionAssumptions` interface of `types/stock.ts`.  The horizon
`years` is a natural number (the source loops `for i = 1; i <= years; i++`). -/
structure ProjectionAssumptions where
  revenueGrowth : ScenarioValues
  targetMargin : ScenarioValues
  exitMultiple : ScenarioValues
  multipleType : MultipleType
  dilutionRate : ℚ
  years : ℕ
deriving DecidableEq, Repr

/-- The `PriceProjection` interface of `types/stock.ts`. -/
structure PriceProjection where
  year : ℤ
  bearCase : ℚ
  baseCase : ℚ
  bullCase : ℚ
deriving DecidableEq, Repr

/-- `calculateScenarioPrice` of `valuation.ts`: compound revenue and shares
for `years` periods, then price the chosen multiple, clamping at 0. -/
def calculateScenarioPrice (currentRevenue sharesOutstanding growthRate
    targetMargin exitMultiple dilutionRate : ℚ) (years : ℕ)
    (multipleType : MultipleType) (metrics : FinancialMetrics) : ℚ :=
  let projectedRevenue := currentRevenue * (1 + growthRate) ^ years
  let projectedShares := sharesOutstanding * (1 + dilutionRate) ^ years
  let price :=
    match multipleType with
    | .pe =>
        let projectedNetIncome := projectedRevenue * targetMargin
        projectedNetIncome * exitMultiple / projectedShares
    | .evEbit =>
        let operatingMargin := targetMargin * 1.3
        let projectedEbit := projectedRevenue * operatingMargin
        (projectedEbit * exitMultiple - jsOr metrics.netDebt 0) / projectedShares
    | .evEbitda =>
        let operatingMargin := targetMargin * 1.3
        let projectedEbitda := projectedRevenue * operatingMargin * 1.2
        (projectedEbitda * exitMultiple - jsOr metrics.netDebt 0) / projectedShares
    | .evRevenue =>
        (projectedRevenue * exitMultiple - jsOr metrics.netDebt 0) / projectedShares
    | .evFcf =>
        let projectedFcf := projectedRevenue * targetMargin
        (projectedFcf * exitMultiple - jsOr metrics.netDebt 0) / projectedShares
  max 0 price

/-- `calculateFairValuePrice` of `valuation.ts`: price today's revenue at the
chosen multiple, clamping at 0. -/
def calculateFairValuePrice (currentRevenue sharesOutstanding targetMargin
    exitMultiple : ℚ) (multipleType : MultipleType)
    (metrics : FinancialMetrics) : ℚ :=
  let price :=
    match multipleType with
    | .pe =>
        currentRevenue * targetMargin * exitMultiple / sharesOutstanding
    | .evEbit =>
        let operatingMargin := targetMargin * 1.3
        (currentRevenue * operatingMargin * exitMultiple - jsOr metrics.netDebt 0) /
          sharesOutstanding
    | .evEbitda =>
        let operatingMargin := targetMargin * 1.3
        (currentRevenue * operatingMargin * 1.2 * exitMultiple - jsOr metrics.netDebt 0) /
          sharesOutstanding
    | .evRevenue =>
        (currentRevenue * exitMultiple - jsOr metrics.netDebt 0) / sharesOutstanding
    | .evFcf =>
        let fcfMargin := targetMargin
        (currentRevenue * fcfMargin * exitMultiple - jsOr metrics.netDebt 0) /
          sharesOutstanding
  max 0 price

/-- `calculateProjections` of `valuation.ts`: one `PriceProjection` per year
`i = 1 .. assumptions.years`, with falsy defaults `revenue || 0` and
`sharesOutstanding || 1`. -/
def calculateProjections (metrics : FinancialMetrics)
    (assumptions : ProjectionAssumptions) (currentYear : ℤ) :
    List PriceProjection :=
  let currentRevenue := jsOr metrics.revenue 0
  let sharesOutstanding := jsOr metrics.sharesOutstanding 1
  (List.range assumptions.years).map fun k =>
    let i : ℕ := k + 1
    { year := currentYear + (i : ℤ)
      bearCase := calculateScenarioPrice currentRevenue sharesOutstanding
        (assumptions.revenueGrowth.bear / 100) (assumptions.targetMargin.bear / 100)
        assumptions.exitMultiple.bear (assumptions.dilutionRate / 100)
        i assumptions.multipleType metrics
      baseCase := calculateScenarioPrice currentRevenue sharesOutstanding
        (assumptions.revenueGrowth.base / 100) (assumptions.targetMargin.base / 100)
        assumptions.exitMultiple.base (assumptions.dilutionRate / 100)
        i assumptions.multipleType metrics
      bullCase := calculateScenarioPrice currentRevenue sharesOutstanding
        (assumptions.revenueGrowth.bull / 100) (assumptions.targetMargin.bull / 100)
        assumptions.exitMultiple.bull (assumptions.dilutionRate / 100)
        i assumptions.multipleType metrics }

/-- `calculateCAGR` of `valuation.ts`, over the reals (it takes a real
`(1/years)`-th power).  The JavaScript guard is
`!start || !end || years <= 0 || start <= 0`; `!x` is true for `null` and
for `0`. -/
noncomputable def calculateCAGR (start finish : Option ℝ) (years : ℝ) :
    Option ℝ :=
  match start, finish with
  | some s, some e =>
      if s = 0 ∨ e = 0 ∨ years ≤ 0 ∨ s ≤ 0 then none
      else some (((e / s) ^ (1 / years) - 1) * 100)
  | _, _ => none

/-- `currentMargin` in `PricePredictor`: `metrics.netMargin ?? 10`
(nullish coalescing, so a present `0` is kept). -/
def defaultCurrentMargin (metrics : FinancialMetrics) : ℚ :=
  metrics.netMargin.getD 10

/-- `marginSpread` in `PricePredictor`:
`Math.max(Math.abs(currentMargin) * 0.25, 5)`. -/
def defaultMarginSpread (metrics : FinancialMetrics) : ℚ :=
  max (|defaultCurrentMargin metrics| * 0.25) 5

/-- The `targetMargin` default triple seeded by `PricePredictor`. -/
def defaultTargetMargin (metrics : FinancialMetrics) : ScenarioValues :=
  { bear := defaultCurrentMargin metrics - defaultMarginSpread metrics
    base := defaultCurrentMargin metrics
    bull := defaultCurrentMargin metrics + defaultMarginSpread metrics }

/-- The full initial `ProjectionAssumptions` object seeded by
`PricePredictor` (`useState` initial value; the initial methodology is `pe`,
whose current multiple is `metrics.peRatio || 20`). -/
def initialAssumptions (metrics : FinancialMetrics) : ProjectionAssumptions :=
  { revenueGrowth := { bear := 5, base := 10, bull := 18 }
    targetMargin := defaultTargetMargin metrics
    exitMultiple :=
      { bear := jsOr metrics.peRatio 20 * 0.7
        base := jsOr metrics.peRatio 20
        bull := jsOr metrics.peRatio 20 * 1.3 }
    multipleType := .pe
    dilutionRate := 1
    years := 5 }

/-- A metrics record with every field unknown, for concrete witnesses. -/
def emptyMetrics : FinancialMetrics :=
  { peRatio := none, forwardPE := none, pegRatio := none, priceToSales := none
    priceToBook := none, evToEbitda := none, evToEbit := none
    evToRevenue := none, grossMargin := none, operatingMargin := none
    netMargin := none, roe := none, roa := none, revenue := none
    netIncome := none, ebitda := none, ebit := none, eps := none
    freeCashFlow := none, totalCash := none, totalDebt := none, netDebt := none
    sharesOutstanding := none, enterpriseValue := none }

/-- `x || 0` agrees with the nullish default `0`. -/
theorem jsOr_zero (x : Option ℚ) : jsOr x 0 = x.getD 0 := by
  cases x with
  | none => rfl
  | some v =>
    by_cases h : v = 0 <;> simp [jsOr, h]

/-- C1: `calculateFairValuePrice` returns `max 0 (equityValue / sharesOutstanding)`
where the equity value is, per methodology: `revenue × targetMargin × exitMultiple`
(pe), `revenue × (targetMargin × 1.3) × exitMultiple − netDebt` (evEbit),
`revenue × (targetMargin × 1.3) × 1.2 × exitMultiple − netDebt` (evEbitda),
`revenue × exitMultiple − netDebt` (evRevenue),
`revenue × targetMargin × exitMultiple − netDebt` (evFcf), with `netDebt`
taken as 0 when `metrics.netDebt` is null. -/
theorem calculateFairValuePrice_formula (rev sh tm xm : ℚ) (mt : MultipleType)
    (m : FinancialMetrics) :
    calculateFairValuePrice rev sh tm xm mt m =
      max 0 ((match mt with
        | .pe => rev * tm * xm
        | .evEbit => rev * (tm * 1.3) * xm - m.netDebt.getD 0
        | .evEbitda => rev * (tm * 1.3) * 1.2 * xm - m.netDebt.getD 0
        | .evRevenue => rev * xm - m.netDebt.getD 0
        | .evFcf => rev * tm * xm - m.netDebt.getD 0) / sh) := by
  cases mt <;> simp [calculateFairValuePrice, jsOr_zero]

/-- C2: `calculateProjections` returns exactly `assumptions.years` records,
whose `year` fields are `currentYear+1, ..., currentYear+years` in order
(hence strictly increasing and contiguous). -/
theorem calculateProjections_years (m : FinancialMetrics)
    (a : ProjectionAssumptions) (y : ℤ) :
    (calculateProjections m a y).length = a.years ∧
    (calculateProjections m a y).map PriceProjection.year =
      (List.range a.years).map (fun k : ℕ => y + ((k : ℤ) + 1)) := by
  refine ⟨by simp [calculateProjections], ?_⟩
  simp only [calculateProjections, List.map_map]
  refine List.map_congr_left fun k _ => ?_
  simp [Function.comp]

/-- C7: the default target margins are centered on the current net margin
(10 when `netMargin` is null) with additive spread
`max (|currentMargin| × 0.25) 5`; for every metrics snapshot, including
negative current margins, bull strictly exceeds base, which strictly exceeds
bear. -/
theorem defaultTargetMargin_ordering (m : FinancialMetrics) :
    (defaultTargetMargin m).base = m.netMargin.getD 10 ∧
    (defaultTargetMargin m).bear =
      m.netMargin.getD 10 - max (|m.netMargin.getD 10| * 0.25) 5 ∧
    (defaultTargetMargin m).bull =
      m.netMargin.getD 10 + max (|m.netMargin.getD 10| * 0.25) 5 ∧
    (defaultTargetMargin m).bear < (defaultTargetMargin m).base ∧
    (defaultTargetMargin m).base < (defaultTargetMargin m).bull := by
  have h5 : (5 : ℚ) ≤ defaultMarginSpread m := le_max_right _ _
  refine ⟨rfl, rfl, rfl, ?_, ?_⟩ <;>
    simp only [defaultTargetMargin] <;> linarith

/-- Every scenario price is clamped below by 0. -/
theorem calculateScenarioPrice_nonneg (rev sh g tm xm d : ℚ) (i : ℕ)
    (mt : MultipleType) (m : FinancialMetrics) :
    0 ≤ calculateScenarioPrice rev sh g tm xm d i mt m :=
  le_max_left 0 _

/-- Every fair-value price is clamped below by 0. -/
theorem calculateFairValuePrice_nonneg (rev sh tm xm : ℚ) (mt : MultipleType)
    (m : FinancialMetrics) :
    0 ≤ calculateFairValuePrice rev sh tm xm mt m :=
  le_max_left 0 _

/-- C4: for every finite inputs and every methodology, both pricing functions
return a value ≥ 0 (negative equity values are clamped to 0), hence every
bear/base/bull field of every record produced by `calculateProjections` is
non-negative. -/
theorem prices_nonneg (rev sh g tm xm d : ℚ) (i : ℕ) (mt : MultipleType)
    (m : FinancialMetrics) (a : ProjectionAssumptions) (y : ℤ) :
    0 ≤ calculateFairValuePrice rev sh tm xm mt m ∧
    0 ≤ calculateScenarioPrice rev sh g tm xm d i mt m ∧
    (calculateProjections m a y).Forall
      (fun p => 0 ≤ p.bearCase ∧ 0 ≤ p.baseCase ∧ 0 ≤ p.bullCase) := by
  refine ⟨calculateFairValuePrice_nonneg .., calculateScenarioPrice_nonneg .., ?_⟩
  rw [List.forall_iff_forall_mem]
  intro p hp
  simp only [calculateProjections, List.mem_map] at hp
  obtain ⟨k, -, rfl⟩ := hp
  exact ⟨calculateScenarioPrice_nonneg .., calculateScenarioPrice_nonneg ..,
    calculateScenarioPrice_nonneg ..⟩

/-- C5: each projected year's per-scenario price equals the fair-value
function applied to the compounded revenue and shares:
`calculateScenarioPrice rev sh g tm xm d i mt m =
 calculateFairValuePrice (rev * (1+g)^i) (sh * (1+d)^i) tm xm mt m`
for every year `i ≥ 1` and every methodology. -/
theorem calculateScenarioPrice_eq_fairValue (rev sh g tm xm d : ℚ) (i : ℕ)
    (mt : MultipleType) (m : FinancialMetrics) (_hi : 1 ≤ i) :
    calculateScenarioPrice rev sh g tm xm d i mt m =
      calculateFairValuePrice (rev * (1 + g) ^ i) (sh * (1 + d) ^ i) tm xm mt m := by
  cases mt <;> rfl

/-- Concrete instance of C5 at revenue 1000, shares 100, growth 10%, margin
15%, multiple 20, dilution 1%, year 3, methodology pe. -/
theorem calculateScenarioPrice_eq_fairValue_witness :
    calculateScenarioPrice 1000 100 (1/10) (15/100) 20 (1/100) 3 .pe
        emptyMetrics =
      calculateFairValuePrice (1000 * (1 + 1/10) ^ 3) (100 * (1 + 1/100) ^ 3)
        (15/100) 20 .pe emptyMetrics :=
  calculateScenarioPrice_eq_fairValue 1000 100 (1/10) (15/100) 20 (1/100) 3
    .pe emptyMetrics (by norm_num)

/-- C10: whenever `metrics.netDebt` is null or 0, the evFcf methodology
coincides with the pe methodology, both for `calculateFairValuePrice` and for
`calculateScenarioPrice` at every growth, dilution and year. -/
theorem evFcf_eq_pe (rev sh g tm xm d : ℚ) (i : ℕ) (m : FinancialMetrics)
    (h : m.netDebt = none ∨ m.netDebt = some 0) :
    calculateFairValuePrice rev sh tm xm .evFcf m =
      calculateFairValuePrice rev sh tm xm .pe m ∧
    calculateScenarioPrice rev sh g tm xm d i .evFcf m =
      calculateScenarioPrice rev sh g tm xm d i .pe m := by
  have hnd : jsOr m.netDebt 0 = 0 := by
    rcases h with h | h <;> simp [jsOr, h]
  constructor <;>
    simp [calculateFairValuePrice, calculateScenarioPrice, hnd]

/-- Concrete instance of C10 on a metrics record with unknown net debt. -/
theorem evFcf_eq_pe_witness :
    calculateFairValuePrice 1000 100 (15/100) 20 .evFcf emptyMetrics =
      calculateFairValuePrice 1000 100 (15/100) 20 .pe emptyMetrics ∧
    calculateScenarioPrice 1000 100 (1/10) (15/100) 20 (1/100) 4 .evFcf
        emptyMetrics =
      calculateScenarioPrice 1000 100 (1/10) (15/100) 20 (1/100) 4 .pe
        emptyMetrics :=
  evFcf_eq_pe 1000 100 (1/10) (15/100) 20 (1/100) 4 emptyMetrics (Or.inl rfl)

/-- `calculateScenarioPrice` reads only the `netDebt` field of its metrics
argument. -/
theorem calculateScenarioPrice_congr (rev sh g tm xm d : ℚ) (i : ℕ)
    (mt : MultipleType) (m1 m2 : FinancialMetrics)
    (hnd : m1.netDebt = m2.netDebt) :
    calculateScenarioPrice rev sh g tm xm d i mt m1 =
      calculateScenarioPrice rev sh g tm xm d i mt m2 := by
  cases mt <;> simp [calculateScenarioPrice, hnd]

/-- `calculateProjections` depends on its metrics argument only through
`revenue || 0`, `sharesOutstanding || 1` and `netDebt`. -/
theorem calculateProjections_congr (m1 m2 : FinancialMetrics)
    (a : ProjectionAssumptions) (y : ℤ)
    (hrev : jsOr m1.revenue 0 = jsOr m2.revenue 0)
    (hsh : jsOr m1.sharesOutstanding 1 = jsOr m2.sharesOutstanding 1)
    (hnd : m1.netDebt = m2.netDebt) :
    calculateProjections m1 a y = calculateProjections m2 a y := by
  simp only [calculateProjections, hrev, hsh]
  refine List.map_congr_left fun k _ => ?_
  simp only [PriceProjection.mk.injEq, true_and]
  exact ⟨calculateScenarioPrice_congr _ _ _ _ _ _ _ _ _ _ hnd,
    calculateScenarioPrice_congr _ _ _ _ _ _ _ _ _ _ hnd,
    calculateScenarioPrice_congr _ _ _ _ _ _ _ _ _ _ hnd⟩

/-- C8: `calculateProjections` is total (it is a Lean function) and absorbs
missing data: a null `revenue` behaves exactly like revenue 0, and a null or
zero `sharesOutstanding` behaves exactly like 1 share, while a complete
sequence of `assumptions.years` records is produced for every input. -/
theorem calculateProjections_defaults (m : FinancialMetrics)
    (a : ProjectionAssumptions) (y : ℤ) :
    (calculateProjections m a y).length = a.years ∧
    calculateProjections { m with revenue := none } a y =
      calculateProjections { m with revenue := some 0 } a y ∧
    calculateProjections { m with sharesOutstanding := none } a y =
      calculateProjections { m with sharesOutstanding := some 1 } a y ∧
    calculateProjections { m with sharesOutstanding := some 0 } a y =
      calculateProjections { m with sharesOutstanding := some 1 } a y := by
  refine ⟨by simp [calculateProjections], ?_, ?_, ?_⟩ <;>
    exact calculateProjections_congr _ _ _ _ (by simp [jsOr]) (by simp [jsOr]) rfl

/-- C9: two metrics snapshots that agree on `revenue`, `sharesOutstanding`
and `netDebt` produce identical projection sequences — the projection engine
reads no other field of the metrics record. -/
theorem calculateProjections_noninterference (m1 m2 : FinancialMetrics)
    (a : ProjectionAssumptions) (y : ℤ)
    (hrev : m1.revenue = m2.revenue)
    (hsh : m1.sharesOutstanding = m2.sharesOutstanding)
    (hnd : m1.netDebt = m2.netDebt) :
    calculateProjections m1 a y = calculateProjections m2 a y :=
  calculateProjections_congr m1 m2 a y (by rw [hrev]) (by rw [hsh]) hnd

/-- Concrete instance of C9: two snapshots sharing revenue, shares and net
debt but wildly different in every other field yield identical projections. -/
theorem calculateProjections_noninterference_witness :
    calculateProjections
        { emptyMetrics with
          revenue := some 1000,
          sharesOutstanding := some 100, netDebt := some 200,
          netMargin := some 25, peRatio := some 40, ebitda := some 300 }
        (initialAssumptions emptyMetrics) 2026 =
      calculateProjections
        { emptyMetrics with
          revenue := some 1000,
          sharesOutstanding := some 100, netDebt := some 200,
          netMargin := some (-7), peRatio := none, eps := some 3 }
        (initialAssumptions emptyMetrics) 2026 :=
  calculateProjections_noninterference _ _
    (initialAssumptions emptyMetrics) 2026 rfl rfl rfl

/-- C3 counterexample: at `currentPrice = 1`, `finalPrice = 0`, `years = 1`
the claim predicts the formula value `((0/1)^(1/1) − 1) × 100 = −100`, but
the code's falsy guard `!end` makes it return null. -/
theorem calculateCAGR_zero_final_counterexample :
    calculateCAGR (some 1) (some 0) 1 = none ∧
    (none : Option ℝ) ≠ some ((((0 : ℝ) / 1) ^ ((1 : ℝ) / 1) - 1) * 100) := by
  constructor
  · simp [calculateCAGR]
  · simp

/-- C3 (amended): `calculateCAGR` returns null exactly when `currentPrice` is
null or ≤ 0, `finalPrice` is null or 0, or `years ≤ 0`; for every other
numeric input it returns `((finalPrice/currentPrice)^(1/years) − 1) × 100`. -/
theorem calculateCAGR_spec (start finish : Option ℝ) (years : ℝ) :
    (calculateCAGR start finish years = none ↔
      start = none ∨ finish = none ∨ finish = some 0 ∨ years ≤ 0 ∨
        ∃ s, start = some s ∧ s ≤ 0) ∧
    ∀ s e, start = some s → finish = some e → 0 < s → e ≠ 0 → 0 < years →
      calculateCAGR start finish years =
        some (((e / s) ^ (1 / years) - 1) * 100) := by
  constructor
  · cases start with
    | none => cases finish <;> simp [calculateCAGR]
    | some s =>
      cases finish with
      | none => simp [calculateCAGR]
      | some e =>
        simp only [calculateCAGR, reduceCtorEq, false_or, Option.some.injEq,
          exists_eq_left']
        constructor
        · intro h
          by_contra hno
          push_neg at hno
          have hcond : ¬(s = 0 ∨ e = 0 ∨ years ≤ 0 ∨ s ≤ 0) := by
            push_neg
            exact ⟨ne_of_gt hno.2.2, hno.1, hno.2.1, hno.2.2⟩
          rw [if_neg hcond] at h
          exact Option.some_ne_none _ h
        · intro h
          rw [if_pos (Or.inr h)]
  · rintro s e rfl rfl hs he hy
    have hcond : ¬(s = 0 ∨ e = 0 ∨ years ≤ 0 ∨ s ≤ 0) := by
      push_neg
      exact ⟨ne_of_gt hs, he, hy, hs⟩
    simp only [calculateCAGR, if_neg hcond]

/-- Concrete instance of C3 (amended): a quadrupling over 2 years. -/
theorem calculateCAGR_spec_witness :
    calculateCAGR (some 1) (some 4) 2 =
      some ((((4 : ℝ) / 1) ^ ((1 : ℝ) / 2) - 1) * 100) :=
  (calculateCAGR_spec (some 1) (some 4) 2).2 1 4 rfl rfl (by norm_num)
    (by norm_num) (by norm_num)

/-- C6 counterexample: with currentRevenue 1 and year 2, raising the growth
rate from −300% to −200% strictly DECREASES both the projected revenue
(`(1−2)^2 = 1 < 4 = (1−3)^2`) and the pe-methodology price. -/
theorem growth_monotonicity_counterexample :
    (-300 : ℚ) < -200 ∧
    1 * (1 + (-200 : ℚ) / 100) ^ 2 < 1 * (1 + (-300 : ℚ) / 100) ^ 2 ∧
    calculateScenarioPrice 1 1 ((-200) / 100) 1 1 (0 / 100) 2 .pe
        emptyMetrics <
      calculateScenarioPrice 1 1 ((-300) / 100) 1 1 (0 / 100) 2 .pe
        emptyMetrics := by
  refine ⟨by norm_num, by norm_num, ?_⟩
  norm_num [calculateScenarioPrice]

/-- C6 (amended): holding margin and multiple fixed, a strictly larger
growth rate strictly increases projected revenue at every year ≥ 1 provided
the revenue is positive and the smaller rate is ≥ −100% (so the compounding
base stays non-negative); under pe it also strictly increases the price
provided margin, multiple and shares are positive and dilution > −100%. -/
theorem growth_monotonicity (rev sh tm xm d g1 g2 : ℚ) (i : ℕ)
    (m : FinancialMetrics) (hrev : 0 < rev) (hi : 1 ≤ i) (hg1 : -100 ≤ g1)
    (hg : g1 < g2) (htm : 0 < tm) (hxm : 0 < xm) (hsh : 0 < sh)
    (hd : -100 < d) :
    rev * (1 + g1 / 100) ^ i < rev * (1 + g2 / 100) ^ i ∧
    calculateScenarioPrice rev sh (g1 / 100) tm xm (d / 100) i .pe m <
      calculateScenarioPrice rev sh (g2 / 100) tm xm (d / 100) i .pe m := by
  have hb1 : (0 : ℚ) ≤ 1 + g1 / 100 := by linarith
  have hb : 1 + g1 / 100 < 1 + g2 / 100 := by linarith
  have hpow : (1 + g1 / 100) ^ i < (1 + g2 / 100) ^ i :=
    pow_lt_pow_left₀ hb hb1 (by omega)
  have hrev2 : rev * (1 + g1 / 100) ^ i < rev * (1 + g2 / 100) ^ i :=
    (mul_lt_mul_left hrev).mpr hpow
  refine ⟨hrev2, ?_⟩
  have hps : 0 < sh * (1 + d / 100) ^ i :=
    mul_pos hsh (pow_pos (by linarith) i)
  have hn1 : (0 : ℚ) ≤ rev * (1 + g1 / 100) ^ i * tm * xm :=
    mul_nonneg (mul_nonneg (mul_nonneg hrev.le (pow_nonneg hb1 i)) htm.le)
      hxm.le
  have hn : rev * (1 + g1 / 100) ^ i * tm * xm <
      rev * (1 + g2 / 100) ^ i * tm * xm := by
    have := mul_lt_mul_of_pos_right hrev2 htm
    exact mul_lt_mul_of_pos_right this hxm
  calc calculateScenarioPrice rev sh (g1 / 100) tm xm (d / 100) i .pe m
      = rev * (1 + g1 / 100) ^ i * tm * xm / (sh * (1 + d / 100) ^ i) := by
        simp only [calculateScenarioPrice]
        exact max_eq_right (div_nonneg hn1 hps.le)
    _ < rev * (1 + g2 / 100) ^ i * tm * xm / (sh * (1 + d / 100) ^ i) :=
        (div_lt_div_iff_of_pos_right hps).mpr hn
    _ ≤ calculateScenarioPrice rev sh (g2 / 100) tm xm (d / 100) i .pe m := by
        simp only [calculateScenarioPrice]
        exact le_max_right _ _

/-- Concrete instance of C6 (amended): growth 5% vs 10% at year 2. -/
theorem growth_monotonicity_witness :
    1 * (1 + (5 : ℚ) / 100) ^ 2 < 1 * (1 + (10 : ℚ) / 100) ^ 2 ∧
    calculateScenarioPrice 1 1 ((5 : ℚ) / 100) 1 1 ((0 : ℚ) / 100) 2 .pe
        emptyMetrics <
      calculateScenarioPrice 1 1 ((10 : ℚ) / 100) 1 1 ((0 : ℚ) / 100) 2 .pe
        emptyMetrics :=
  growth_monotonicity 1 1 1 1 0 5 10 2 emptyMetrics (by norm_num)
    (by norm_num) (by norm_num) (by norm_num) (by norm_num) (by norm_num)
    (by norm_num) (by norm_num)

end Stock
